import Mathlib

/-!
Verification of the orchestration core of the typst compiler (src/lib.rs):
the Feedback and Pass primitives and the Typesetter pipeline
(parse, layout, typeset, style setters).

Functions present in src/lib.rs are embedded directly from the source.
Collaborator types and functions that live outside the provided source
(positions, spans, the span-offsetting helpers, geometry, styles, the
parser and the recursive layout engine) are modelled from the spec; the
parser and the recursive layout engine are taken as parameters, so every
theorem about the pipeline holds for an arbitrary choice of collaborators.
-/

namespace Typst

/-- Modelled from the spec: a position is a byte offset into the
original top-level source (the `Pos` type of the span module, which is
not part of the provided source). -/
abbrev Pos := Nat

/-- The zero position, `Pos::ZERO`. Modelled from the spec. -/
def Pos.ZERO : Pos := 0

/-- Modelled from the spec: a span is an offset pair (start and end byte
offsets) into the original top-level source. The source field name `end`
is a Lean keyword, so it is called `stop` here. -/
structure Span where
  start : Pos
  stop : Pos
deriving DecidableEq, Repr

/-- Modelled from the spec: translating a span by an offset moves both of
its positions (the `Offset` impl of the span module). -/
def Span.offset (s : Span) (by_ : Pos) : Span :=
  { start := s.start + by_, stop := s.stop + by_ }

/-- Modelled from the spec: a diagnostic severity level. -/
inductive Severity where
  | Warning
  | Error
deriving DecidableEq, Repr

/-- Modelled from the spec: a diagnostic is severity + message + span. -/
structure Diagnostic where
  severity : Severity
  message : String
  span : Span
deriving DecidableEq, Repr

/-- A list of diagnostics, `diagnostic::Diagnostics`. -/
abbrev Diagnostics := List Diagnostic

/-- Modelled from the spec: offsetting a diagnostic list translates every
contained span by the given offset (the `Offset` impl for `Diagnostics`). -/
def Diagnostics.offset (ds : Diagnostics) (by_ : Pos) : Diagnostics :=
  ds.map fun d => { d with span := d.span.offset by_ }

/-- Modelled from the spec: a decoration is a semantic-highlight kind
plus a span. -/
structure Decoration where
  kind : String
  span : Span
deriving DecidableEq, Repr

/-- A list of decorations, `syntax::decoration::Decorations`. -/
abbrev Decorations := List Decoration

/-- Modelled from the spec: offsetting a decoration list translates every
contained span by the given offset (the `Offset` impl for `Decorations`). -/
def Decorations.offset (ds : Decorations) (by_ : Pos) : Decorations :=
  ds.map fun d => { d with span := d.span.offset by_ }

/-- User feedback data accumulated during a compilation pass
(src/lib.rs, `struct Feedback`). -/
structure Feedback where
  diagnostics : Diagnostics
  decorations : Decorations
deriving DecidableEq, Repr

/-- `Feedback::new`: feedback without errors and decos (src/lib.rs). -/
def Feedback.new : Feedback :=
  { diagnostics := [], decorations := [] }

/-- `Feedback::extend`: add other feedback data to this feedback
(src/lib.rs); `Vec::extend` appends at the back. -/
def Feedback.extend (self other : Feedback) : Feedback :=
  { diagnostics := self.diagnostics ++ other.diagnostics
    decorations := self.decorations ++ other.decorations }

/-- `Feedback::merge`: merge two feedbacks into one (src/lib.rs):
`a.extend(b); a`. -/
def Feedback.merge (a b : Feedback) : Feedback :=
  a.extend b

/-- `Feedback::extend_offset`: add more feedback whose spans are local and
need to be offset (src/lib.rs). -/
def Feedback.extend_offset (self : Feedback) (more : Feedback) (offset : Pos) : Feedback :=
  { diagnostics := self.diagnostics ++ more.diagnostics.offset offset
    decorations := self.decorations ++ more.decorations.offset offset }

/-- The result of some pass: some output `T` and feedback data
(src/lib.rs, `struct Pass<T>`). -/
structure Pass (T : Type u) where
  output : T
  feedback : Feedback

/-- `Pass::new` (src/lib.rs). -/
def Pass.new (output : T) (feedback : Feedback) : Pass T :=
  { output, feedback }

/-- `Pass::map`: map the output type and keep the feedback data
(src/lib.rs). -/
def Pass.map (self : Pass T) (f : T → U) : Pass U :=
  { output := f self.output
    feedback := self.feedback }

/-- Modelled from the spec: a two-dimensional size (lengths are modelled
as exact integers; the claims under study are structural, not numeric). -/
structure Size where
  x : Int
  y : Int
deriving DecidableEq, Repr

/-- Modelled from the spec: per-side margins of a page. -/
structure Margins where
  left : Int
  top : Int
  right : Int
  bottom : Int
deriving DecidableEq, Repr

/-- Modelled from the spec: `Size::unpadded` removes the padding from a
total size, giving the content area (page size minus margins). -/
def Size.unpadded (s : Size) (m : Margins) : Size :=
  { x := s.x - m.left - m.right, y := s.y - m.top - m.bottom }

/-- Modelled from the spec: the two independent expansion flags of a
layout space (primary-axis and secondary-axis expansion). -/
structure LayoutExpansion where
  horizontal : Bool
  vertical : Bool
deriving DecidableEq, Repr

/-- `LayoutExpansion::new` (geometry module, modelled from the spec). -/
def LayoutExpansion.new (horizontal vertical : Bool) : LayoutExpansion :=
  { horizontal, vertical }

/-- Modelled from the spec: the four canonical flow directions. `LTT` and
`TTB` are the two names the orchestrator uses for the default axes. -/
inductive Direction where
  | LTT
  | RTL
  | TTB
  | BTT
deriving DecidableEq, Repr

/-- Modelled from the spec: layout axes are an ordered pair of a primary
(flow) and a secondary (cross) direction. -/
structure LayoutAxes where
  primary : Direction
  secondary : Direction
deriving DecidableEq, Repr

/-- `LayoutAxes::new` (geometry module, modelled from the spec). -/
def LayoutAxes.new (primary secondary : Direction) : LayoutAxes :=
  { primary, secondary }

/-- Modelled from the spec: start/center/end alignment along an axis. -/
inductive Alignment where
  | Start
  | Center
  | End
deriving DecidableEq, Repr

/-- Modelled from the spec: independent alignment along each axis. -/
structure LayoutAlign where
  primary : Alignment
  secondary : Alignment
deriving DecidableEq, Repr

/-- `LayoutAlign::new` (geometry module, modelled from the spec). -/
def LayoutAlign.new (primary secondary : Alignment) : LayoutAlign :=
  { primary, secondary }

/-- Modelled from the spec: a layout space is a rectangular region
described by a total size, per-side padding, and two expansion flags. -/
structure LayoutSpace where
  size : Size
  padding : Margins
  expansion : LayoutExpansion
deriving DecidableEq, Repr

/-- Modelled from the spec: the shared font loader is an opaque handle;
only its identity matters to the orchestrator. -/
structure SharedFontLoader where
  id : Nat
deriving DecidableEq, Repr

/-- Modelled from the spec: the base text style (an opaque style record;
its contents are irrelevant to the orchestration claims). -/
structure TextStyle where
  fontSize : Int
deriving DecidableEq, Repr

/-- Modelled from the spec: the base page style carries the page size and
the page margins (`PageStyle::margins()` resolves the margins). -/
structure PageStyle where
  size : Size
  margins : Margins
deriving DecidableEq, Repr

/-- Modelled from the spec: a default page style. -/
def PageStyle.default : PageStyle :=
  { size := { x := 595, y := 842 }
    margins := { left := 70, top := 70, right := 70, bottom := 70 } }

/-- Modelled from the spec: a default text style. -/
def TextStyle.default : TextStyle :=
  { fontSize := 11 }

/-- The base layouting style: text style plus page style
(`style::LayoutStyle`, modelled from the spec). -/
structure LayoutStyle where
  text : TextStyle
  page : PageStyle
deriving DecidableEq, Repr

/-- `LayoutStyle::default` (modelled from the spec). -/
def LayoutStyle.default : LayoutStyle :=
  { text := TextStyle.default, page := PageStyle.default }

/-- Modelled from the spec: a name-resolution scope is a collection of
known names. -/
abbrev Scope := List String

/-- `Scope::with_std`: a scope seeded with standard built-ins
(modelled from the spec; the concrete contents are irrelevant here). -/
def Scope.with_std : Scope :=
  ["align", "box", "page", "page.break"]

/-- The base parser state: a name-resolution scope
(`syntax::parsing::ParseState`, modelled from the spec). -/
structure ParseState where
  scope : Scope
deriving DecidableEq, Repr

/-- Modelled from the spec: a syntax tree is an immutable, externally
produced tree of nodes, each tagged with its source span. Its internal
shape is irrelevant to the orchestration claims. -/
structure SyntaxTree where
  nodes : List (Span × Nat)
deriving DecidableEq, Repr

/-- Modelled from the spec: a box is a positioned, sized rectangle of
finished content; only its size matters to the orchestration claims. -/
structure BoxLayout where
  size : Size
deriving DecidableEq, Repr

/-- A multi layout: an ordered sequence of boxes (pages). -/
abbrev MultiLayout := List BoxLayout

/-- The layout context handed to the recursive layout engine
(`layout::LayoutContext`, fields as used in src/lib.rs lines 93–106).
The `repeat` field keeps its source name via an escaped identifier. -/
structure LayoutContext where
  loader : SharedFontLoader
  style : LayoutStyle
  base : Size
  spaces : List LayoutSpace
  «repeat» : Bool
  axes : LayoutAxes
  align : LayoutAlign
  nested : Bool
deriving DecidableEq, Repr

/-- The type of the parsing collaborator:
`parse(source, start, state) -> Pass<SyntaxTree>` (spec §6). -/
abbrev ParseFn := String → Pos → ParseState → Pass SyntaxTree

/-- The type of the recursive layout engine:
a function from a tree and a context to a `Pass<MultiLayout>` (spec §4.3). -/
abbrev LayoutFn := SyntaxTree → LayoutContext → Pass MultiLayout

/-- Transforms source code into typesetted layouts
(src/lib.rs, `struct Typesetter`). -/
structure Typesetter where
  loader : SharedFontLoader
  style : LayoutStyle
  parse_state : ParseState
deriving DecidableEq, Repr

/-- `Typesetter::new` (src/lib.rs). -/
def Typesetter.new (loader : SharedFontLoader) : Typesetter :=
  { loader
    style := LayoutStyle.default
    parse_state := { scope := Scope.with_std } }

/-- `Typesetter::set_text_style` (src/lib.rs): `self.style.text = style`. -/
def Typesetter.set_text_style (self : Typesetter) (style : TextStyle) : Typesetter :=
  { self with style := { self.style with text := style } }

/-- `Typesetter::set_page_style` (src/lib.rs): `self.style.page = style`. -/
def Typesetter.set_page_style (self : Typesetter) (style : PageStyle) : Typesetter :=
  { self with style := { self.style with page := style } }

/-- `Typesetter::parse` (src/lib.rs):
`parse(src, Pos::ZERO, &self.parse_state)`. The parsing collaborator is a
parameter. -/
def Typesetter.parse (p : ParseFn) (self : Typesetter) (src : String) : Pass SyntaxTree :=
  p src Pos.ZERO self.parse_state

/-- The layout context constructed by `Typesetter::layout`
(src/lib.rs lines 90–106), verbatim from the source. -/
def Typesetter.layoutContext (self : Typesetter) : LayoutContext :=
  let margins := self.style.page.margins
  { loader := self.loader
    style := self.style
    base := self.style.page.size.unpadded margins
    spaces := [{ size := self.style.page.size
                 padding := margins
                 expansion := LayoutExpansion.new true true }]
    «repeat» := true
    axes := LayoutAxes.new Direction.LTT Direction.TTB
    align := LayoutAlign.new Alignment.Start Alignment.Start
    nested := false }

/-- `Typesetter::layout` (src/lib.rs): invoke the recursive layout engine
(a parameter here) with the context of `Typesetter.layoutContext`. -/
def Typesetter.layout (engine : LayoutFn) (self : Typesetter) (tree : SyntaxTree) :
    Pass MultiLayout :=
  engine tree self.layoutContext

/-- `Typesetter::typeset` (src/lib.rs): parse, layout the parsed output,
merge the two feedbacks (parse feedback first), return the layout output
with the merged feedback. -/
def Typesetter.typeset (p : ParseFn) (engine : LayoutFn) (self : Typesetter)
    (src : String) : Pass MultiLayout :=
  let parsed := self.parse p src
  let layouted := self.layout engine parsed.output
  let feedback := Feedback.merge parsed.feedback layouted.feedback
  Pass.new layouted.output feedback

end Typst

namespace Typst

/-- Claim C1: for all feedback values `a` and `b`, `Feedback.merge a b`
has as diagnostics the concatenation of the diagnostics of `a` followed
by those of `b`, and likewise for decorations: order preserved, no entry
lost, no entry duplicated. -/
theorem feedback_merge_is_concat (a b : Feedback) :
    (Feedback.merge a b).diagnostics = a.diagnostics ++ b.diagnostics ∧
    (Feedback.merge a b).decorations = a.decorations ++ b.decorations :=
  ⟨rfl, rfl⟩

/-- Claim C2: `Feedback.extend_offset fb more offset` appends, after all
previously accumulated entries and in order, exactly the entries of
`more`, each with its span translated by `offset` exactly once (both
span endpoints shifted by `offset`). -/
theorem extend_offset_translates_once (fb more : Feedback) (offset : Pos) :
    (fb.extend_offset more offset).diagnostics =
      fb.diagnostics ++ more.diagnostics.map (fun d =>
        { severity := d.severity
          message := d.message
          span := { start := d.span.start + offset, stop := d.span.stop + offset } }) ∧
    (fb.extend_offset more offset).decorations =
      fb.decorations ++ more.decorations.map (fun d =>
        { kind := d.kind
          span := { start := d.span.start + offset, stop := d.span.stop + offset } }) :=
  ⟨rfl, rfl⟩

/-- Claim C3: `Pass.map f` yields a pass whose output is `f` applied to
the original output and whose feedback is identical by value to the
original feedback; feedback is never modified, dropped or duplicated. -/
theorem pass_map_preserves_feedback {T U : Type} (p : Pass T) (f : T → U) :
    (p.map f).output = f p.output ∧ (p.map f).feedback = p.feedback :=
  ⟨rfl, rfl⟩

/-- Claim C4: for every parsing collaborator, layout engine, typesetter
state and source string, the feedback of `typeset` equals the plain
(non-offset) `Feedback.merge` of the parse feedback and the feedback of
`layout` applied to the parsed output tree, parse feedback first. -/
theorem typeset_feedback_composition (p : ParseFn) (engine : LayoutFn)
    (t : Typesetter) (src : String) :
    (t.typeset p engine src).feedback =
      Feedback.merge (t.parse p src).feedback
        (t.layout engine (t.parse p src).output).feedback :=
  rfl

/-- Claim C5, counterexample: for a concrete typesetter with the default
(nonzero) margins, the single initial layout space is not equal to the
page content area: its size is the full page size, not the page size
minus the margins. -/
theorem layout_space_not_content_area :
    ¬ ((Typesetter.new { id := 0 }).layoutContext.spaces.map LayoutSpace.size =
        [(Typesetter.new { id := 0 }).style.page.size.unpadded
          (Typesetter.new { id := 0 }).style.page.margins]) := by
  decide

/-- Claim C5 as amended: `Typesetter.layout` constructs the initial
context with exactly one layout space whose total size is the full page
size and whose padding equals the page margins (so its unpadded area is
the page content area), with the content area as `base`, default axes,
default alignment, `repeat = true` and `nested = false`, and invokes the
recursive layout engine with that context. -/
theorem layout_initial_context (t : Typesetter) (engine : LayoutFn) (tree : SyntaxTree) :
    t.layoutContext.spaces =
      [{ size := t.style.page.size
         padding := t.style.page.margins
         expansion := { horizontal := true, vertical := true } }] ∧
    t.layoutContext.base = t.style.page.size.unpadded t.style.page.margins ∧
    t.layoutContext.«repeat» = true ∧
    t.layoutContext.nested = false ∧
    t.layoutContext.axes = { primary := Direction.LTT, secondary := Direction.TTB } ∧
    t.layoutContext.align = { primary := Alignment.Start, secondary := Alignment.Start } ∧
    t.layout engine tree = engine tree t.layoutContext :=
  ⟨rfl, rfl, rfl, rfl, rfl, rfl, rfl⟩

/-- Claim C6: `set_text_style` replaces only the text component of the
stored base style and `set_page_style` replaces only the page component;
in both cases the stored page (resp. text) style, the parser state and
the font loader are unchanged. The snapshot-isolation part of the claim
(a call in progress is unaffected) is inherent in this value-passing
embedding: the setters return a new value and every pipeline function
depends only on the typesetter value it was given. -/
theorem style_setters_frame (t : Typesetter) (ts : TextStyle) (ps : PageStyle) :
    (t.set_text_style ts).style.text = ts ∧
    (t.set_text_style ts).style.page = t.style.page ∧
    (t.set_text_style ts).parse_state = t.parse_state ∧
    (t.set_text_style ts).loader = t.loader ∧
    (t.set_page_style ps).style.page = ps ∧
    (t.set_page_style ps).style.text = t.style.text ∧
    (t.set_page_style ps).parse_state = t.parse_state ∧
    (t.set_page_style ps).loader = t.loader :=
  ⟨rfl, rfl, rfl, rfl, rfl, rfl, rfl, rfl⟩

/-- Claim C7: `Typesetter.parse` invokes the parsing collaborator with
the given source, start position zero, and the current parser state, and
returns the collaborator's result unchanged (no offsetting applied). -/
theorem parse_delegates_with_zero_offset (p : ParseFn) (t : Typesetter) (src : String) :
    t.parse p src = p src Pos.ZERO t.parse_state ∧ Pos.ZERO = 0 :=
  ⟨rfl, rfl⟩

/-- Claim C8: two `typeset` invocations on equal typesetter states and
equal source strings (with the same collaborators) produce equal
`MultiLayout` outputs and equal `Feedback` values. -/
theorem typeset_two_run_determinism (p : ParseFn) (engine : LayoutFn)
    (t1 t2 : Typesetter) (src1 src2 : String)
    (ht : t1 = t2) (hs : src1 = src2) :
    (t1.typeset p engine src1).output = (t2.typeset p engine src2).output ∧
    (t1.typeset p engine src1).feedback = (t2.typeset p engine src2).feedback := by
  subst ht
  subst hs
  exact ⟨rfl, rfl⟩

/-- A concrete parsing collaborator used to instantiate hypotheses. -/
def sampleParse : ParseFn :=
  fun _ _ _ => Pass.new { nodes := [] } Feedback.new

/-- A concrete layout engine used to instantiate hypotheses. -/
def sampleEngine : LayoutFn :=
  fun _ ctx => Pass.new [{ size := ctx.base }] Feedback.new

/-- A concrete typesetter used to instantiate hypotheses. -/
def sampleTypesetter : Typesetter :=
  Typesetter.new { id := 7 }

/-- Witness for claim C8 at a concrete state and source. -/
theorem typeset_two_run_determinism_witness :
    (sampleTypesetter.typeset sampleParse sampleEngine "hello").output =
      (sampleTypesetter.typeset sampleParse sampleEngine "hello").output ∧
    (sampleTypesetter.typeset sampleParse sampleEngine "hello").feedback =
      (sampleTypesetter.typeset sampleParse sampleEngine "hello").feedback :=
  typeset_two_run_determinism sampleParse sampleEngine
    sampleTypesetter sampleTypesetter "hello" "hello" rfl rfl

/-- Claim C9: the output of `typeset` is exactly the output of `layout`
applied to the output tree of `parse`, passed through unchanged. -/
theorem typeset_output_is_layout_output (p : ParseFn) (engine : LayoutFn)
    (t : Typesetter) (src : String) :
    (t.typeset p engine src).output =
      (t.layout engine (t.parse p src).output).output :=
  rfl

/-- Claim C10: the single initial layout space passed to the engine has
both expansion flags set, its size is the full configured page size, and
its padding equals the page margins. -/
theorem initial_space_full_page (t : Typesetter) :
    t.layoutContext.spaces.map LayoutSpace.expansion = [{ horizontal := true, vertical := true }] ∧
    t.layoutContext.spaces.map LayoutSpace.size = [t.style.page.size] ∧
    t.layoutContext.spaces.map LayoutSpace.padding = [t.style.page.margins] :=
  ⟨rfl, rfl, rfl⟩

end Typst
